import Mathlib

/-!
Verification of the graph schema introspection and normalization engine
(Development-bot repository).  The Python sources are shallowly embedded:
pure functions become Lean functions, the Neo4j store and the on-disk JSON
file become explicit inputs, and Python exceptions become `Except` errors.
-/

set_option autoImplicit false

deriving instance DecidableEq for Except

namespace DevBot

/-! ## Python value model

Observed property values are Python scalars.  Floats and datetimes are
opaque to the engine (only `isinstance` checks and string formatting touch
them), so they carry an uninterpreted payload. -/

inductive PyVal where
  | pydatetime (iso : String)
  | pybool (b : Bool)
  | pyint (n : Int)
  | pyfloat (repr : String)
  | pystr (s : String)
  | pynone
deriving DecidableEq

/-- Python `isinstance(value, datetime)`. -/
def isinstance_datetime : PyVal → Bool
  | .pydatetime _ => true
  | _ => false

/-- Python `isinstance(value, bool)`. -/
def isinstance_bool : PyVal → Bool
  | .pybool _ => true
  | _ => false

/-- Python `isinstance(value, int)`.  In Python, `bool` is a subclass of
`int`, so boolean values are instances of `int` as well. -/
def isinstance_int : PyVal → Bool
  | .pyint _ => true
  | .pybool _ => true
  | _ => false

/-- Python `isinstance(value, float)`. -/
def isinstance_float : PyVal → Bool
  | .pyfloat _ => true
  | _ => false

/-- `determine_type` from `mod_2.py` (identical in `fastapi.py`, `mod.py`,
`mod_1.py`, `mod_1_5.py`): the chain of `isinstance` checks, in source
order `datetime`, `int`, `float`, `bool`, else `string`. -/
def determine_type (value : PyVal) : String :=
  if isinstance_datetime value then "datetime"
  else if isinstance_int value then "int"
  else if isinstance_float value then "float"
  else if isinstance_bool value then "boolean"
  else "string"

/-! ## Python exceptions and dicts -/

/-- The Python exceptions that the embedded code can raise. -/
inductive PyErr where
  | typeError (msg : String)
  | valueError (msg : String)
  | fileNotFound (msg : String)
  | jsonDecode (msg : String)
  | validationError (msg : String)
deriving DecidableEq

/-- Python `str(e)` on a caught exception: the message. -/
def pyErrStr : PyErr → String
  | .typeError m => m
  | .valueError m => m
  | .fileNotFound m => m
  | .jsonDecode m => m
  | .validationError m => m

/-- Insertion-ordered association list modelling a Python `dict`:
assigning an existing key updates the value in place, a new key is
appended at the end, exactly as Python dicts preserve insertion order. -/
def dictInsert {K V : Type} [DecidableEq K] (k : K) (v : V) : List (K × V) → List (K × V)
  | [] => [(k, v)]
  | (k1, v1) :: rest => if k1 = k then (k, v) :: rest else (k1, v1) :: dictInsert k v rest

/-- Python `d[k]` lookup / `k in d` membership support: the value stored at
the first (unique) occurrence of the key. -/
def dictGet {K V : Type} [DecidableEq K] (k : K) : List (K × V) → Option V
  | [] => none
  | (k1, v) :: rest => if k1 = k then some v else dictGet k rest

/-- Python `d.keys()` in insertion order. -/
def dictKeys {K V : Type} : List (K × V) → List K :=
  List.map Prod.fst

theorem dictGet_nil {K V : Type} [DecidableEq K] (k : K) :
    dictGet (V := V) k [] = none := rfl

theorem dictKeys_dictInsert {K V : Type} [DecidableEq K] (k : K) (v : V) (d : List (K × V)) :
    dictKeys (dictInsert k v d) =
      if (dictGet k d).isSome then dictKeys d else dictKeys d ++ [k] := by
  induction d with
  | nil => simp [dictInsert, dictGet, dictKeys]
  | cons p rest ih =>
    obtain ⟨k1, v1⟩ := p
    by_cases hk : k1 = k
    · simp [dictInsert, dictGet, dictKeys, hk]
    · simp only [dictInsert, dictGet, dictKeys, hk, if_false, List.map_cons, ite_false] at ih ⊢
      rw [ih]
      by_cases hs : (dictGet k rest).isSome <;> simp [hs]

/-- Inserting a fresh key appends the binding at the end. -/
theorem dictInsert_fresh {K V : Type} [DecidableEq K] (k : K) (v : V) (d : List (K × V))
    (h : dictGet k d = none) :
    dictInsert k v d = d ++ [(k, v)] := by
  induction d with
  | nil => rfl
  | cons p rest ih =>
    obtain ⟨k1, v1⟩ := p
    by_cases hk : k1 = k
    · simp [dictGet, hk] at h
    · simp only [dictGet, if_neg hk] at h
      simp [dictInsert, hk, ih h]

/-! ## Data model of `mod_2.py`

Pydantic models `Relationship`, `LabelDetails`, `NodeResponse`,
`RelationshipStatement`, `LabelInfoResponse`.  Python `Dict[str, _]`
fields become insertion-ordered association lists. -/

structure Relationship where
  type : Option String
  start_node_labels : Option (List String)
  end_node_labels : Option (List String)
deriving DecidableEq

structure LabelDetails where
  properties : List (String × String)
  relationships : List Relationship
deriving DecidableEq

structure NodeResponse where
  node_labels : List String
  label_info : List (String × LabelDetails)
deriving DecidableEq

structure RelationshipStatement where
  statement : String
deriving DecidableEq

structure LabelInfoResponse where
  label : String
  properties : List (String × String)
  relationships : List RelationshipStatement
deriving DecidableEq

/-! ## Relationship statement generator (`mod_2.py`, lines 180-189) -/

/-- Rendering of an `Optional[str]` inside a Python f-string:
`None` prints as the four-letter string. -/
def fstrOptStr : Option String → String
  | none => "None"
  | some s => s

/-- Message of the `TypeError` Python raises when iterating `None`
(here: `any(lbl in labels for lbl in None)`). -/
def noneIterMsg : String := "argument of type NoneType is not iterable"

/-- One iteration of the loop body of `generate_relationship_statements`:
evaluate `any(lbl in labels for lbl in rel.start_node_labels) and
any(lbl in labels for lbl in rel.end_node_labels)` with Python
short-circuiting (`and` does not touch the right operand when the left is
falsy, so a `None` end list is only an error when the start test passed);
on inclusion, build `(start:joined)-[:type]->(end:joined)`. -/
def relStep (labels : List String) (rel : Relationship) :
    Except PyErr (Option RelationshipStatement) :=
  match rel.start_node_labels with
  | none => .error (.typeError noneIterMsg)
  | some startLbls =>
    if startLbls.any (fun lbl => labels.contains lbl) then
      match rel.end_node_labels with
      | none => .error (.typeError noneIterMsg)
      | some endLbls =>
        if endLbls.any (fun lbl => labels.contains lbl) then
          .ok (some ⟨"(" ++ String.intercalate ":" startLbls ++ ")-[:" ++
                fstrOptStr rel.type ++ "]->(" ++
                String.intercalate ":" endLbls ++ ")"⟩)
        else .ok none
    else .ok none

/-- `generate_relationship_statements` from `mod_2.py`: loop over the
patterns in order, appending a statement for every included pattern; a
raised `TypeError` aborts the whole call. -/
def generate_relationship_statements (labels : List String) :
    List Relationship → Except PyErr (List RelationshipStatement)
  | [] => .ok []
  | rel :: rest =>
    match relStep labels rel with
    | .error e => .error e
    | .ok res =>
      match generate_relationship_statements labels rest with
      | .error e => .error e
      | .ok tl =>
        match res with
        | some s => .ok (s :: tl)
        | none => .ok tl

/-! ## Graph sampler and aggregator
(`mod_2.py`, `fetch_nodes_and_relationships_from_neo4j`, lines 104-144)

The Neo4j sample query is external; its per-record output (node labels,
property keys, property values, adjacent relationship descriptors) is the
`RawRecord` input of the pure fold. -/

/-- One element of the `relationships` column of the sample query: the
map `{type: type(r), start_node_labels: labels(startNode(r)),
end_node_labels: labels(endNode(r))}`.  For a node with no outgoing
relationship the `OPTIONAL MATCH` leaves `r` null and every field of the
collected map is null. -/
structure RelDescriptor where
  type : Option String
  start_node_labels : Option (List String)
  end_node_labels : Option (List String)
deriving DecidableEq

structure RawRecord where
  labels : List String
  prop_keys : List String
  prop_values : List PyVal
  relationships : List RelDescriptor
deriving DecidableEq

/-- The pydantic `Relationship(...)` construction from a descriptor. -/
def relOfDescriptor (r : RelDescriptor) : Relationship :=
  ⟨r.type, r.start_node_labels, r.end_node_labels⟩

/-- The `labels_dict` comprehension: one empty entry per schema label. -/
def initLabelsDict (keys : List String) : List (String × LabelDetails) :=
  keys.foldl (fun d l => dictInsert l ⟨[], []⟩ d) []

/-- Property merge for one record and one label: `labels_dict[label]["properties"][key] = determine_type(value)`
over `zip(prop_keys, prop_values)`. -/
def mergeProps (props : List (String × String)) (kvs : List (String × PyVal)) :
    List (String × String) :=
  kvs.foldl (fun p kv => dictInsert kv.1 (determine_type kv.2) p) props

/-- Body of `for label in labels` inside the record loop: only labels
already present in `labels_dict` are touched; properties are merged and
every adjacent relationship descriptor is appended. -/
def processLabel (record : RawRecord) (d : List (String × LabelDetails)) (label : String) :
    List (String × LabelDetails) :=
  match dictGet label d with
  | none => d
  | some det =>
    dictInsert label
      ⟨mergeProps det.properties (record.prop_keys.zip record.prop_values),
       det.relationships ++ record.relationships.map relOfDescriptor⟩ d

def processRecord (d : List (String × LabelDetails)) (record : RawRecord) :
    List (String × LabelDetails) :=
  record.labels.foldl (processLabel record) d

/-- The pure fold of `fetch_nodes_and_relationships_from_neo4j`: build
`labels_dict` from the schema mapping keys, fold the raw records, return
`{"node_labels": list(labels_dict.keys()), "label_info": labels_dict}`. -/
def fetch_nodes_aggregate (node_properties : List (String × List (String × String)))
    (records : List RawRecord) : NodeResponse :=
  let d := records.foldl processRecord (initLabelsDict (dictKeys node_properties))
  ⟨dictKeys d, d⟩

/-- The `LIMIT 10` of the sample query string in
`fetch_nodes_and_relationships_from_neo4j`. -/
def sample_query_limit : Nat := 10

/-- Modelled from the spec: execution of the `LIMIT`-bounded sample query
by the graph store (an excluded collaborator, specified in the spec as "a
bounded graph-sample query returning up to N node records"): the store
returns at most `sample_query_limit` records, truncating the rest. -/
def runSampleQuery (store : List RawRecord) : List RawRecord :=
  store.take sample_query_limit

/-- `fetch_nodes_and_relationships_from_neo4j` with the store explicit:
run the bounded sample query, fold the returned records. -/
def fetch_nodes_and_relationships_from_neo4j
    (node_properties : List (String × List (String × String)))
    (store : List RawRecord) : NodeResponse :=
  fetch_nodes_aggregate node_properties (runSampleQuery store)

/-! ## Schema fetcher (`mod_2.py`, lines 66-102)

The `db.schema.visualization()` call is external; its single record (a
list of node groups and a list of relationship groups) is the input.
`result.single()` yields `None` when the query returns no record, modelled
by `Option`. -/

structure SchemaNode where
  labels : List String
  properties : List (String × PyVal)
deriving DecidableEq

structure SchemaRel where
  type : Option String
  startLabels : List String
  endLabels : List String
deriving DecidableEq

structure SchemaRecord where
  nodes : List SchemaNode
  relationships : List SchemaRel
deriving DecidableEq

/-- One entry of the `schema_relationships` list built by
`fetch_schema` in `mod_2.py`. -/
structure SchemaRelOut where
  type : Option String
  start_node_labels : List String
  end_node_labels : List String
deriving DecidableEq

/-- The dict comprehension `{prop["propertyKey"]: determine_type(prop["propertyValue"]) for prop in node.get("properties", [])}`. -/
def propsDict (props : List (String × PyVal)) : List (String × String) :=
  props.foldl (fun d p => dictInsert p.1 (determine_type p.2) d) []

/-- Return value of `fetch_schema` in `mod_2.py`: the degenerate paths
return the empty dict `\x7b\x7d`, the normal path returns the tuple
`(node_properties, schema_relationships)` — two different shapes. -/
inductive FetchSchemaResult where
  | emptyDict
  | pair (node_properties : List (String × List (String × String)))
         (schema_relationships : List SchemaRelOut)
deriving DecidableEq

/-- `fetch_schema` from `mod_2.py`: on a missing record return `\x7b\x7d`;
otherwise each individual label of each node group becomes its own
`node_properties` key (first node group wins per label), and the
relationship groups are re-shaped. -/
def fetch_schema_m2 (queryResult : Option SchemaRecord) : FetchSchemaResult :=
  match queryResult with
  | none => .emptyDict
  | some record =>
    let node_properties := record.nodes.foldl (fun d node =>
      node.labels.foldl (fun d2 label =>
        if (dictGet label d2).isSome then d2
        else dictInsert label (propsDict node.properties) d2) d) []
    let schema_relationships := record.relationships.map (fun r =>
      SchemaRelOut.mk r.type r.startLabels r.endLabels)
    .pair node_properties schema_relationships

/-- Python tuple unpacking `node_properties, _ = fetch_schema(driver)`
(`mod_2.py`, line 162): unpacking iterates the right-hand side and demands
exactly two items; iterating the empty dict yields its zero keys, so the
degenerate `\x7b\x7d` return raises `ValueError`. -/
def unpack2 (r : FetchSchemaResult) :
    Except PyErr (List (String × List (String × String)) × List SchemaRelOut) :=
  match r with
  | .emptyDict => .error (.valueError "not enough values to unpack (expected 2, got 0)")
  | .pair a b => .ok (a, b)

/-! ## Schema fetcher variant of `mod_1_5.py` (lines 60-83)

This variant joins all labels of a node group into one composite key,
skipping null labels: `":".join([label for label in labels if label is not None])`. -/

structure SchemaNodeOpt where
  labels : List (Option String)
  properties : List (String × PyVal)
deriving DecidableEq

/-- The key construction of `mod_1_5.py`: join the non-null labels with a
colon. -/
def labels_key_m15 (labels : List (Option String)) : String :=
  String.intercalate ":" (labels.filterMap id)

/-- `fetch_schema` from `mod_1_5.py` (pure part): one composite key per
node group, later node groups overwriting earlier ones on key collision. -/
def fetch_schema_m15 (queryResult : Option (List SchemaNodeOpt)) :
    List (String × List (String × String)) :=
  match queryResult with
  | none => []
  | some nodes =>
    nodes.foldl (fun d node =>
      dictInsert (labels_key_m15 node.labels) (propsDict node.properties) d) []

/-- Python `str.join` as used by `fetch_schema.py` and `mod.py`
(`":".join(node["labels"])` with no null filtering): `join` raises
`TypeError` when an element is not a `str`, e.g. `None`. -/
def pyJoin (sep : String) (items : List (Option String)) : Except PyErr String :=
  if items.all Option.isSome then
    .ok (String.intercalate sep (items.filterMap id))
  else
    .error (.typeError "sequence item: expected str instance, NoneType found")

/-! ## Aggregate store (`mod_2.py`, lines 146-155)

`dump_data_to_file` writes `json.dump(data.dict())`; `load_data_from_file`
reads `json.load` and rebuilds `NodeResponse(**data)`.  The file is
modelled as the stored JSON value (the byte-level encode/decode of the
excluded persistence layer is the identity on JSON values); a missing file
raises `FileNotFoundError` and an undecodable file raises
`json.JSONDecodeError`. -/

inductive Json where
  | null
  | str (s : String)
  | jbool (b : Bool)
  | arr (xs : List Json)
  | obj (fields : List (String × Json))

/-- Serialization of `Optional[str]` by `dict()`/`json.dump`. -/
def jsonOfOptStr : Option String → Json
  | none => .null
  | some s => .str s

/-- Serialization of `List[str]`. -/
def jsonOfStrList (xs : List String) : Json :=
  .arr (xs.map .str)

/-- Serialization of `Optional[List[str]]`. -/
def jsonOfOptStrList : Option (List String) → Json
  | none => .null
  | some xs => jsonOfStrList xs

def jsonOfRelationship (r : Relationship) : Json :=
  .obj [("type", jsonOfOptStr r.type),
        ("start_node_labels", jsonOfOptStrList r.start_node_labels),
        ("end_node_labels", jsonOfOptStrList r.end_node_labels)]

def jsonOfLabelDetails (d : LabelDetails) : Json :=
  .obj [("properties", .obj (d.properties.map (fun p => (p.1, Json.str p.2)))),
        ("relationships", .arr (d.relationships.map jsonOfRelationship))]

def jsonOfNodeResponse (a : NodeResponse) : Json :=
  .obj [("node_labels", jsonOfStrList a.node_labels),
        ("label_info", .obj (a.label_info.map (fun p => (p.1, jsonOfLabelDetails p.2))))]

/-- Pydantic validation of a `str` field. -/
def strOfJson : Json → Except String String
  | .str s => .ok s
  | _ => .error "str expected"

/-- Pydantic validation of an `Optional[str]` field. -/
def optStrOfJson : Json → Except String (Option String)
  | .null => .ok none
  | .str s => .ok (some s)
  | _ => .error "str or null expected"

def strListOfJsonAux : List Json → Except String (List String)
  | [] => .ok []
  | j :: rest =>
    match strOfJson j with
    | .error e => .error e
    | .ok s =>
      match strListOfJsonAux rest with
      | .error e => .error e
      | .ok tl => .ok (s :: tl)

/-- Pydantic validation of a `List[str]` field. -/
def strListOfJson : Json → Except String (List String)
  | .arr xs => strListOfJsonAux xs
  | _ => .error "list of str expected"

/-- Pydantic validation of an `Optional[List[str]]` field. -/
def optStrListOfJson : Json → Except String (Option (List String))
  | .null => .ok none
  | .arr xs =>
    match strListOfJsonAux xs with
    | .error e => .error e
    | .ok tl => .ok (some tl)
  | _ => .error "list of str or null expected"

/-- Pydantic field access on the keyword arguments: an absent key of an
`Optional[...]` field defaults to `None`. -/
def fieldOr (fields : List (String × Json)) (k : String) : Json :=
  match dictGet k fields with
  | some v => v
  | none => .null

/-- Pydantic reconstruction of a `Relationship`. -/
def relationshipOfJson : Json → Except String Relationship
  | .obj fields =>
    (match optStrOfJson (fieldOr fields "type") with
     | .error e => .error e
     | .ok t =>
       match optStrListOfJson (fieldOr fields "start_node_labels") with
       | .error e => .error e
       | .ok s =>
         match optStrListOfJson (fieldOr fields "end_node_labels") with
         | .error e => .error e
         | .ok en => .ok ⟨t, s, en⟩)
  | _ => .error "Relationship: object expected"

def relListOfJsonAux : List Json → Except String (List Relationship)
  | [] => .ok []
  | j :: rest =>
    match relationshipOfJson j with
    | .error e => .error e
    | .ok r =>
      match relListOfJsonAux rest with
      | .error e => .error e
      | .ok tl => .ok (r :: tl)

def strDictOfJsonAux : List (String × Json) → Except String (List (String × String))
  | [] => .ok []
  | f :: rest =>
    match strOfJson f.2 with
    | .error e => .error e
    | .ok s =>
      match strDictOfJsonAux rest with
      | .error e => .error e
      | .ok tl => .ok ((f.1, s) :: tl)

/-- Pydantic reconstruction of a `LabelDetails` (the `properties` and
`relationships` fields default to empty when absent). -/
def labelDetailsOfJson : Json → Except String LabelDetails
  | .obj fields =>
    (match (match dictGet "properties" fields with
            | none => Except.ok []
            | some (.obj pf) => strDictOfJsonAux pf
            | some _ => Except.error "properties: object expected") with
     | .error e => .error e
     | .ok props =>
       match (match dictGet "relationships" fields with
              | none => Except.ok []
              | some (.arr rf) => relListOfJsonAux rf
              | some _ => Except.error "relationships: list expected") with
       | .error e => .error e
       | .ok rels => .ok ⟨props, rels⟩)
  | _ => .error "LabelDetails: object expected"

def labelInfoOfJsonAux : List (String × Json) → Except String (List (String × LabelDetails))
  | [] => .ok []
  | f :: rest =>
    match labelDetailsOfJson f.2 with
    | .error e => .error e
    | .ok d =>
      match labelInfoOfJsonAux rest with
      | .error e => .error e
      | .ok tl => .ok ((f.1, d) :: tl)

/-- Pydantic reconstruction `NodeResponse(**data)`. -/
def nodeResponseOfJson : Json → Except String NodeResponse
  | .obj fields =>
    (match (match dictGet "node_labels" fields with
            | none => Except.ok []
            | some v => strListOfJson v) with
     | .error e => .error e
     | .ok nl =>
       match (match dictGet "label_info" fields with
              | none => Except.ok []
              | some (.obj lf) => labelInfoOfJsonAux lf
              | some _ => Except.error "label_info: object expected") with
       | .error e => .error e
       | .ok li => .ok ⟨nl, li⟩)
  | _ => .error "NodeResponse: object expected"

/-- State of `fetched_data.json`. -/
inductive FileState where
  | missing
  | corrupt (content : String)
  | stored (j : Json)

/-- `dump_data_to_file` from `mod_2.py`: overwrite the file with the JSON
serialization of the aggregate. -/
def dump_data_to_file (data : NodeResponse) : FileState :=
  .stored (jsonOfNodeResponse data)

/-- `load_data_from_file` from `mod_2.py`: `open` raises
`FileNotFoundError` on a missing file, `json.load` raises
`JSONDecodeError` on an undecodable file, and `NodeResponse(**data)`
raises `ValidationError` on a JSON value of the wrong shape. -/
def load_data_from_file : FileState → Except PyErr NodeResponse
  | .missing => .error (.fileNotFound "No such file or directory: fetched_data.json")
  | .corrupt _ => .error (.jsonDecode "Expecting value: line 1 column 1 (char 0)")
  | .stored j =>
    match nodeResponseOfJson j with
    | .ok d => .ok d
    | .error m => .error (.validationError m)

/-! ## Endpoints (`mod_2.py`, `get_nodes` lines 157-173 and
`get_label_info` lines 191-221)

Both handlers wrap their body in `try/except Exception`, re-raising any
exception as `HTTPException(status_code=500, detail=str(e))`. -/

structure HTTPError where
  status_code : Nat
  detail : String
deriving DecidableEq

/-- `get_nodes` from `mod_2.py` with the two external query results
explicit: fetch the schema, tuple-unpack its return value, sample and
aggregate, persist, and return; any raised exception becomes an
HTTP 500 whose detail is `str(e)`. -/
def get_nodes_m2 (schemaResult : Option SchemaRecord) (store : List RawRecord) :
    Except HTTPError (NodeResponse × FileState) :=
  match unpack2 (fetch_schema_m2 schemaResult) with
  | .error e => .error ⟨500, pyErrStr e⟩
  | .ok np =>
    let nodes := fetch_nodes_and_relationships_from_neo4j np.1 store
    .ok (nodes, dump_data_to_file nodes)

/-- Loop body of `get_label_info`: requested labels absent from
`label_info` are skipped with `continue`; for present labels the
statements are generated against the full requested list and the response
entry is appended. -/
def get_label_info_loop (allLabels : List String) (data : NodeResponse) :
    List String → Except PyErr (List LabelInfoResponse)
  | [] => .ok []
  | label :: rest =>
    match dictGet label data.label_info with
    | none => get_label_info_loop allLabels data rest
    | some det =>
      match generate_relationship_statements allLabels det.relationships with
      | .error e => .error e
      | .ok stmts =>
        match get_label_info_loop allLabels data rest with
        | .error e => .error e
        | .ok tl => .ok (⟨label, det.properties, stmts⟩ :: tl)

/-- Body of `get_label_info` after a successful load. -/
def get_label_info_core (labels : List String) (data : NodeResponse) :
    Except PyErr (List LabelInfoResponse) :=
  get_label_info_loop labels data labels

/-- `get_label_info` from `mod_2.py` with the persisted file explicit:
load the aggregate, filter to the requested labels, generate statements;
any raised exception becomes an HTTP 500 whose detail is `str(e)`. -/
def get_label_info (labels : List String) (file : FileState) :
    Except HTTPError (List LabelInfoResponse) :=
  match load_data_from_file file with
  | .error e => .error ⟨500, pyErrStr e⟩
  | .ok data =>
    match get_label_info_core labels data with
    | .error e => .error ⟨500, pyErrStr e⟩
    | .ok res => .ok res

/-! ## Spec-side characterization of the statement generator (§4.5) -/

/-- Formalisation of the spec's description of the relationship statement
generator: include a pattern exactly when some start label is requested
and some end label is requested, render it as
`(start labels joined by colon)-[:type]->(end labels joined by colon)`,
preserve input order, keep duplicates. -/
def specGenerateStatements (labels : List String) (patterns : List Relationship) :
    List RelationshipStatement :=
  patterns.filterMap (fun r =>
    match r.start_node_labels, r.end_node_labels with
    | some sl, some el =>
      if (sl.any (fun lbl => labels.contains lbl)) && (el.any (fun lbl => labels.contains lbl)) then
        some ⟨"(" ++ String.intercalate ":" sl ++ ")-[:" ++ fstrOptStr r.type ++ "]->(" ++
              String.intercalate ":" el ++ ")"⟩
      else none
    | _, _ => none)

/-- On patterns whose endpoint label lists are both present, the embedded
generator never raises and agrees with the spec-side description. -/
theorem generate_eq_spec (labels : List String) (patterns : List Relationship)
    (hwf : ∀ r ∈ patterns, r.start_node_labels ≠ none ∧ r.end_node_labels ≠ none) :
    generate_relationship_statements labels patterns =
      .ok (specGenerateStatements labels patterns) := by
  induction patterns with
  | nil => rfl
  | cons r rest ih =>
    obtain ⟨hs, he⟩ := hwf r (List.mem_cons_self r rest)
    have ih2 := ih (fun x hx => hwf x (List.mem_cons_of_mem r hx))
    cases hsl : r.start_node_labels with
    | none => exact absurd hsl hs
    | some sl =>
      cases hel : r.end_node_labels with
      | none => exact absurd hel he
      | some el =>
        simp only [generate_relationship_statements, relStep, hsl, hel, ih2,
          specGenerateStatements, List.filterMap_cons]
        cases h1 : sl.any (fun lbl => labels.contains lbl) <;>
          cases h2 : el.any (fun lbl => labels.contains lbl) <;>
            simp

/-! ## Claim theorems -/

/-- C1: the claim states that `determine_type` returns "boolean" on every
boolean input and never "int".  The code checks `isinstance(value, int)`
before `isinstance(value, bool)`, and Python booleans are instances of
`int`, so both boolean values are classified "int" and the "boolean"
branch is unreachable for every input. -/
theorem c1_boolean_misclassified_as_int :
    determine_type (.pybool true) = "int" ∧
    determine_type (.pybool false) = "int" ∧
    ∀ v : PyVal, determine_type v ≠ "boolean" := by
  refine ⟨rfl, rfl, ?_⟩
  intro v
  cases v <;>
    simp [determine_type, isinstance_datetime, isinstance_bool, isinstance_int, isinstance_float]

/-- C2: on well-formed patterns (both endpoint label lists present, as the
spec's `RelationshipPattern` type guarantees) the generator includes
exactly the patterns having some start label in the requested set and some
end label in the requested set, renders each included pattern as
`(start labels joined by colon)-[:type]->(end labels joined by colon)`,
preserves the input order, keeps duplicates, and yields the empty list
rather than an error when the input is empty or nothing matches. -/
theorem c2_generator_matches_spec (labels : List String) (patterns : List Relationship)
    (hwf : ∀ r ∈ patterns, r.start_node_labels ≠ none ∧ r.end_node_labels ≠ none) :
    generate_relationship_statements labels patterns =
      .ok (specGenerateStatements labels patterns) :=
  generate_eq_spec labels patterns hwf

theorem c2_generator_matches_spec_witness :
    (∀ r ∈ ([⟨some "WORKS_AT", some ["Person"], some ["Company"]⟩] : List Relationship),
       r.start_node_labels ≠ none ∧ r.end_node_labels ≠ none) ∧
    generate_relationship_statements ["Person", "Company"]
        [⟨some "WORKS_AT", some ["Person"], some ["Company"]⟩] =
      .ok (specGenerateStatements ["Person", "Company"]
        [⟨some "WORKS_AT", some ["Person"], some ["Company"]⟩]) ∧
    specGenerateStatements ["Person", "Company"]
        [⟨some "WORKS_AT", some ["Person"], some ["Company"]⟩] =
      [⟨"(Person)-[:WORKS_AT]->(Company)"⟩] :=
  ⟨by decide, c2_generator_matches_spec _ _ (by decide), by decide⟩

/-! ### Dict lemmas for the empty-sample aggregate -/

theorem dictGet_append_none {K V : Type} [DecidableEq K] (k : K) (d e : List (K × V))
    (h : dictGet k d = none) : dictGet k (d ++ e) = dictGet k e := by
  induction d with
  | nil => rfl
  | cons p rest ih =>
    obtain ⟨k1, v1⟩ := p
    by_cases hk : k1 = k
    · simp [dictGet, hk] at h
    · simp only [dictGet, if_neg hk] at h
      simp [dictGet, hk, ih h]

/-- Folding fresh insertions over an insertion-ordered dict appends the
new bindings in order. -/
theorem foldl_dictInsert_fresh {V : Type} (c : V) :
    ∀ (keys : List String) (d : List (String × V)),
      (∀ k ∈ keys, dictGet k d = none) → keys.Nodup →
      keys.foldl (fun d2 l => dictInsert l c d2) d = d ++ keys.map (fun l => (l, c))
  | [], d, _, _ => by simp
  | k :: ks, d, h, hnd => by
    have hfresh : dictGet k d = none := h k (List.mem_cons_self k ks)
    have hins : dictInsert k c d = d ++ [(k, c)] := dictInsert_fresh k c d hfresh
    have hks : ∀ k2 ∈ ks, dictGet k2 (d ++ [(k, c)]) = none := by
      intro k2 hk2
      rw [dictGet_append_none k2 d [(k, c)] (h k2 (List.mem_cons_of_mem k hk2))]
      have hne : k ≠ k2 := by
        intro hkk
        exact (List.nodup_cons.mp hnd).1 (hkk ▸ hk2)
      simp [dictGet, hne]
    have ih := foldl_dictInsert_fresh c ks (d ++ [(k, c)]) hks (List.nodup_cons.mp hnd).2
    simp only [List.foldl_cons, hins, ih, List.map_cons, List.append_assoc,
      List.singleton_append]

/-- With distinct schema labels, the initial `labels_dict` is one empty
entry per label, in schema order. -/
theorem initLabelsDict_eq (keys : List String) (h : keys.Nodup) :
    initLabelsDict keys = keys.map (fun l => (l, (⟨[], []⟩ : LabelDetails))) := by
  have hf := foldl_dictInsert_fresh (⟨[], []⟩ : LabelDetails) keys [] (fun k _ => rfl) h
  simpa [initLabelsDict] using hf

/-- C3: aggregating an empty sample yields exactly the schema labels, in
schema order, each with empty properties and empty relationships. -/
theorem c3_empty_sample (S : List (String × List (String × String)))
    (h : (dictKeys S).Nodup) :
    fetch_nodes_and_relationships_from_neo4j S [] =
      ⟨dictKeys S, (dictKeys S).map (fun l => (l, ⟨[], []⟩))⟩ := by
  have hinit := initLabelsDict_eq (dictKeys S) h
  simp only [dictKeys] at hinit
  simp only [fetch_nodes_and_relationships_from_neo4j, runSampleQuery, fetch_nodes_aggregate,
    List.take_nil, List.foldl_nil, dictKeys, hinit]
  simp [List.map_map, Function.comp]

theorem c3_empty_sample_witness :
    (dictKeys [("Person", ([] : List (String × String))), ("Company", [])]).Nodup ∧
    fetch_nodes_and_relationships_from_neo4j
        [("Person", ([] : List (String × String))), ("Company", [])] [] =
      ⟨["Person", "Company"], [("Person", ⟨[], []⟩), ("Company", ⟨[], []⟩)]⟩ :=
  ⟨by decide, (c3_empty_sample _ (by decide)).trans (by decide)⟩

/-- C4: the claim states that on an empty schema-visualization result the
fetch cycle proceeds without error.  `fetch_schema` does return the empty
dict on that path, but the `get_nodes` call site tuple-unpacks the return
value, and unpacking the empty dict raises `ValueError`, so for every
store the cycle fails with an HTTP 500 instead of proceeding. -/
theorem c4_empty_schema_crashes_call_site :
    fetch_schema_m2 none = .emptyDict ∧
    ∀ store : List RawRecord,
      get_nodes_m2 none store =
        .error ⟨500, "not enough values to unpack (expected 2, got 0)"⟩ :=
  ⟨rfl, fun _ => rfl⟩

/-- C5 counterexample: on a missing persisted file, `get_label_info`
surfaces the raw exception message inside a generic HTTP 500, not a
distinct "no schema available yet" condition. -/
theorem c5_counterexample_generic_500 :
    get_label_info ["Person"] FileState.missing =
      .error ⟨500, "No such file or directory: fetched_data.json"⟩ ∧
    "No such file or directory: fetched_data.json" ≠ "no schema available yet" :=
  ⟨rfl, by decide⟩

/-- C5 amended: on a missing or corrupt persisted file, `load_data_from_file`
raises and `get_label_info` catches the exception and returns a generic
HTTP 500 whose detail is the exception message; the process does not
crash, but no distinct "no schema available yet" condition is surfaced. -/
theorem c5_load_failure_surfaces_generic_500 :
    ∀ (labels : List String) (s : String),
      get_label_info labels FileState.missing =
        .error ⟨500, "No such file or directory: fetched_data.json"⟩ ∧
      get_label_info labels (FileState.corrupt s) =
        .error ⟨500, "Expecting value: line 1 column 1 (char 0)"⟩ :=
  fun _ _ => ⟨rfl, rfl⟩

/-! ### Round-trip lemmas for the aggregate store -/

theorem strListOfJsonAux_map_str (xs : List String) :
    strListOfJsonAux (xs.map .str) = .ok xs := by
  induction xs with
  | nil => rfl
  | cons x rest ih => simp [strListOfJsonAux, strOfJson, ih]

theorem optStrOfJson_roundtrip (t : Option String) :
    optStrOfJson (jsonOfOptStr t) = .ok t := by
  cases t <;> rfl

theorem optStrListOfJson_roundtrip (t : Option (List String)) :
    optStrListOfJson (jsonOfOptStrList t) = .ok t := by
  cases t with
  | none => rfl
  | some xs =>
    simp [jsonOfOptStrList, jsonOfStrList, optStrListOfJson, strListOfJsonAux_map_str]

theorem relationshipOfJson_roundtrip (r : Relationship) :
    relationshipOfJson (jsonOfRelationship r) = .ok r := by
  obtain ⟨t, s, e⟩ := r
  simp [jsonOfRelationship, relationshipOfJson, fieldOr, dictGet,
    optStrOfJson_roundtrip, optStrListOfJson_roundtrip]

theorem relListOfJsonAux_roundtrip (rs : List Relationship) :
    relListOfJsonAux (rs.map jsonOfRelationship) = .ok rs := by
  induction rs with
  | nil => rfl
  | cons r rest ih => simp [relListOfJsonAux, relationshipOfJson_roundtrip, ih]

theorem strDictOfJsonAux_roundtrip (ps : List (String × String)) :
    strDictOfJsonAux (ps.map (fun p => (p.1, Json.str p.2))) = .ok ps := by
  induction ps with
  | nil => rfl
  | cons p rest ih => simp [strDictOfJsonAux, strOfJson, ih]

theorem labelDetailsOfJson_roundtrip (d : LabelDetails) :
    labelDetailsOfJson (jsonOfLabelDetails d) = .ok d := by
  obtain ⟨props, rels⟩ := d
  simp [jsonOfLabelDetails, labelDetailsOfJson, dictGet,
    strDictOfJsonAux_roundtrip, relListOfJsonAux_roundtrip]

theorem labelInfoOfJsonAux_roundtrip (li : List (String × LabelDetails)) :
    labelInfoOfJsonAux (li.map (fun p => (p.1, jsonOfLabelDetails p.2))) = .ok li := by
  induction li with
  | nil => rfl
  | cons p rest ih => simp [labelInfoOfJsonAux, labelDetailsOfJson_roundtrip, ih]

theorem nodeResponseOfJson_roundtrip (a : NodeResponse) :
    nodeResponseOfJson (jsonOfNodeResponse a) = .ok a := by
  obtain ⟨nl, li⟩ := a
  simp [jsonOfNodeResponse, nodeResponseOfJson, dictGet, jsonOfStrList, strListOfJson,
    strListOfJsonAux_map_str, labelInfoOfJsonAux_roundtrip]

/-- C6: saving any aggregate to the store and loading it back returns an
aggregate equal to the one saved. -/
theorem c6_save_load_roundtrip (A : NodeResponse) :
    load_data_from_file (dump_data_to_file A) = .ok A := by
  simp [dump_data_to_file, load_data_from_file, nodeResponseOfJson_roundtrip]

/-- C8: the sample query carries a fixed `LIMIT 10`, not configurable per
request: the aggregate is always built from the first at-most-10 raw
records of the store, and a larger store is truncated, never an error. -/
theorem c8_sample_capped_at_ten :
    ∀ (S : List (String × List (String × String))) (store : List RawRecord),
      (runSampleQuery store).length ≤ sample_query_limit ∧
      sample_query_limit = 10 ∧
      fetch_nodes_and_relationships_from_neo4j S store =
        fetch_nodes_aggregate S (store.take 10) := by
  intro S store
  refine ⟨?_, rfl, rfl⟩
  simp [runSampleQuery]

/-! ### Lemmas for the label-info query -/

theorem dictGet_mem {K V : Type} [DecidableEq K] :
    ∀ (d : List (K × V)) (k : K) (v : V), dictGet k d = some v → (k, v) ∈ d := by
  intro d
  induction d with
  | nil => intro k v h; simp [dictGet] at h
  | cons p rest ih =>
    intro k v h
    obtain ⟨k1, v1⟩ := p
    by_cases hk : k1 = k
    · simp only [dictGet, if_pos hk] at h
      have hv : v1 = v := by injection h
      subst hk
      subst hv
      exact List.mem_cons_self _ _
    · simp only [dictGet, if_neg hk] at h
      exact List.mem_cons_of_mem _ (ih k v h)

/-- The requested-label loop of `get_label_info` never raises over an
aggregate whose patterns all carry both endpoint lists, and the produced
entries are exactly the requested labels present in `label_info`, in
request order. -/
theorem get_label_info_loop_ok (allLabels : List String) (A : NodeResponse)
    (hwf : ∀ p ∈ A.label_info, ∀ r ∈ p.2.relationships,
      r.start_node_labels ≠ none ∧ r.end_node_labels ≠ none) :
    ∀ rest : List String, ∃ res,
      get_label_info_loop allLabels A rest = .ok res ∧
      res.map LabelInfoResponse.label =
        rest.filter (fun l => (dictGet l A.label_info).isSome)
  | [] => ⟨[], rfl, rfl⟩
  | label :: rest => by
    obtain ⟨res, h1, h2⟩ := get_label_info_loop_ok allLabels A hwf rest
    cases hget : dictGet label A.label_info with
    | none =>
      refine ⟨res, ?_, ?_⟩
      · simp [get_label_info_loop, hget, h1]
      · simp [List.filter_cons, hget, h2]
    | some det =>
      have hdet := hwf (label, det) (dictGet_mem A.label_info label det hget)
      have hgen := generate_eq_spec allLabels det.relationships hdet
      refine ⟨⟨label, det.properties, specGenerateStatements allLabels det.relationships⟩ :: res,
        ?_, ?_⟩
      · simp [get_label_info_loop, hget, hgen, h1]
      · simp [List.filter_cons, hget, h2]

/-- C9: querying label info against a persisted aggregate (whose patterns
carry both endpoint lists) silently omits every requested label absent
from `label_info`: the call returns without error and its entries are
exactly the requested labels that are present, in request order. -/
theorem c9_absent_labels_omitted (labels : List String) (A : NodeResponse)
    (hwf : ∀ p ∈ A.label_info, ∀ r ∈ p.2.relationships,
      r.start_node_labels ≠ none ∧ r.end_node_labels ≠ none) :
    ∃ res, get_label_info labels (dump_data_to_file A) = .ok res ∧
      res.map LabelInfoResponse.label =
        labels.filter (fun l => (dictGet l A.label_info).isSome) := by
  obtain ⟨res, h1, h2⟩ := get_label_info_loop_ok labels A hwf labels
  refine ⟨res, ?_, h2⟩
  simp [get_label_info, load_data_from_file, dump_data_to_file,
    nodeResponseOfJson_roundtrip, get_label_info_core, h1]

theorem c9_absent_labels_omitted_witness :
    (∀ p ∈ [("Person", LabelDetails.mk [("name", "string")]
          [Relationship.mk (some "W") (some ["Person"]) (some ["Person"])])],
       ∀ r ∈ p.2.relationships, r.start_node_labels ≠ none ∧ r.end_node_labels ≠ none) ∧
    (∃ res, get_label_info ["Person", "Ghost"]
        (dump_data_to_file (NodeResponse.mk ["Person"]
          [("Person", LabelDetails.mk [("name", "string")]
            [Relationship.mk (some "W") (some ["Person"]) (some ["Person"])])])) = .ok res ∧
      res.map LabelInfoResponse.label =
        ["Person", "Ghost"].filter (fun l =>
          (dictGet l [("Person", LabelDetails.mk [("name", "string")]
            [Relationship.mk (some "W") (some ["Person"]) (some ["Person"])])]).isSome)) :=
  ⟨by decide, c9_absent_labels_omitted ["Person", "Ghost"] _ (by decide)⟩

/-! ### Lemmas for schema key construction -/

theorem dictGet_dictInsert_self {K V : Type} [DecidableEq K] (k : K) (v : V)
    (d : List (K × V)) : dictGet k (dictInsert k v d) = some v := by
  induction d with
  | nil => simp [dictInsert, dictGet]
  | cons p rest ih =>
    obtain ⟨k1, v1⟩ := p
    by_cases hk : k1 = k
    · simp [dictInsert, dictGet, hk]
    · simp [dictInsert, dictGet, hk, ih]

theorem dictGet_isSome_iff_mem {K V : Type} [DecidableEq K] (k : K) (d : List (K × V)) :
    (dictGet k d).isSome = true ↔ k ∈ dictKeys d := by
  induction d with
  | nil => simp [dictGet, dictKeys]
  | cons p rest ih =>
    obtain ⟨k1, v1⟩ := p
    by_cases hk : k1 = k
    · simp [dictGet, dictKeys, hk]
    · simp only [dictGet, if_neg hk, dictKeys, List.map_cons, List.mem_cons, ih]
      constructor
      · intro h
        exact Or.inr h
      · rintro (h | h)
        · exact absurd h.symm hk
        · exact h

/-- A key present in the dict stays present while further insertions are
folded over it. -/
theorem dictGet_isSome_foldl_insert {K V α : Type} [DecidableEq K] (f : α → K) (g : α → V) :
    ∀ (ns : List α) (d : List (K × V)) (k : K),
      (dictGet k d).isSome = true →
      (dictGet k (ns.foldl (fun d2 n => dictInsert (f n) (g n) d2) d)).isSome = true
  | [], _, _, h => h
  | n :: ns, d, k, h => by
    apply dictGet_isSome_foldl_insert f g ns
    rw [dictGet_isSome_iff_mem] at h ⊢
    rw [dictKeys_dictInsert]
    by_cases hs : (dictGet (f n) d).isSome <;> simp [hs, h]

/-- Every folded-in element leaves its key present in the final dict. -/
theorem mem_key_foldl_insert {K V α : Type} [DecidableEq K] (f : α → K) (g : α → V) :
    ∀ (ns : List α) (d : List (K × V)) (x : α), x ∈ ns →
      (dictGet (f x) (ns.foldl (fun d2 n => dictInsert (f n) (g n) d2) d)).isSome = true
  | [], _, x, hx => absurd hx (List.not_mem_nil x)
  | n :: ns, d, x, hx => by
    rcases List.mem_cons.mp hx with h | h
    · subst h
      apply dictGet_isSome_foldl_insert f g ns
      simp [dictGet_dictInsert_self]
    · exact mem_key_foldl_insert f g ns (dictInsert (f n) (g n) d) x h

/-- C7 counterexample: in the `fetch_schema` of `mod_2.py`, a node group
with labels ["A", "B"] produces one mapping key per label — keys "A" and
"B" — not the single joined key "A:B" the claim describes. -/
theorem c7_counterexample_no_join_in_m2 :
    fetch_schema_m2 (some ⟨[⟨["A", "B"], [("name", .pystr "x")]⟩], []⟩) =
      .pair [("A", [("name", "string")]), ("B", [("name", "string")])] [] ∧
    dictKeys [("A", [("name", "string")]), ("B", [("name", "string")])] ≠ ["A:B"] :=
  ⟨by decide, by decide⟩

/-- C7 amended: key construction differs across the cited variants.  In
`mod_1_5.py` (and likewise `mod_1.py`) the key is the node's labels joined
with ":" skipping null entries (so labels [A, null, B] yield the single
key "A:B"), and every node group's key is present in the resulting
mapping; in `fetch_schema.py` (as in `mod.py`) the join does not skip
nulls, so a null label raises `TypeError`; and in `mod_2.py` no joining
happens at all (see the counterexample). -/
theorem c7_label_key_variants (nodes : List SchemaNodeOpt) (node : SchemaNodeOpt)
    (h : node ∈ nodes) :
    labels_key_m15 [some "A", none, some "B"] = "A:B" ∧
    (dictGet (labels_key_m15 node.labels) (fetch_schema_m15 (some nodes))).isSome = true ∧
    pyJoin ":" [some "A", none, some "B"] =
      .error (.typeError "sequence item: expected str instance, NoneType found") := by
  refine ⟨by decide, ?_, by decide⟩
  exact mem_key_foldl_insert (fun n => labels_key_m15 n.labels)
    (fun n => propsDict n.properties) nodes [] node h

theorem c7_label_key_variants_witness :
    SchemaNodeOpt.mk [some "A", none, some "B"] [("k", PyVal.pystr "v")] ∈
      [SchemaNodeOpt.mk [some "A", none, some "B"] [("k", PyVal.pystr "v")]] ∧
    (labels_key_m15 [some "A", none, some "B"] = "A:B" ∧
     (dictGet (labels_key_m15 (SchemaNodeOpt.mk [some "A", none, some "B"]
          [("k", PyVal.pystr "v")]).labels)
        (fetch_schema_m15 (some [SchemaNodeOpt.mk [some "A", none, some "B"]
          [("k", PyVal.pystr "v")]]))).isSome = true ∧
     pyJoin ":" [some "A", none, some "B"] =
       .error (.typeError "sequence item: expected str instance, NoneType found")) :=
  ⟨by decide, c7_label_key_variants _ _ (by decide)⟩

end DevBot
